import Mathlib

/-!
Verification of the telers event-dispatch engine against its specification.

The development shallowly embeds the parts of the repository that the
checked properties speak about:

* `fsm/strategy.rs` — the `Strategy` enum and `Strategy::apply`;
* `fsm/storage/memory.rs` — the in-memory FSM `Storage` implementation;
* `dispatcher/event/telegram/observer.rs` — `ObserverService::trigger`
  (handler selection with common filters and inner middlewares);
* `router.rs` — `Service::propagate_event`, `Service::propagate_update_event`,
  `Service::emit_startup` and `Service::emit_shutdown`.

Rust `async` plumbing is erased (all the modelled code is sequential on one
request), fallible calls become `Except`, `HashMap`s become functions to
`Option`, and trait objects become plain function fields.
-/

deriving instance DecidableEq for Except

namespace Telers

/-- Control signal returned by middlewares and handlers
(`EventReturn` in `event/bases.rs`): `Finish`, `Skip`, `Cancel`. -/
inductive EventReturn : Type where
  | finish
  | skip
  | cancel
deriving DecidableEq, Repr

/-- Result of propagating an event to an observer or a router
(`PropagateEventResult` in `event/bases.rs`), with the payload of the
`Handled` variant abstracted as `R`. -/
inductive PropagateEventResult (R : Type) : Type where
  | unhandled
  | handled (response : R)
  | rejected
deriving DecidableEq, Repr

/-- Mirrors `EventReturn::is_skip`. -/
def EventReturn.is_skip : EventReturn → Bool
  | .skip => true
  | _ => false

/-- Mirrors `EventReturn::is_cancel`. -/
def EventReturn.is_cancel : EventReturn → Bool
  | .cancel => true
  | _ => false

/-! ## FSM strategy (`fsm/strategy.rs`) -/

/-- The ten storage-scoping strategies (`Strategy` in `fsm/strategy.rs`). -/
inductive Strategy : Type where
  | userInChat
  | chat
  | globalUser
  | userInThread
  | chatThread
  | userInChatAndConnection
  | chatAndConnection
  | globalUserAndConnection
  | userInThreadAndConnection
  | chatThreadAndConnection
deriving DecidableEq, Repr

/-- Mirrors `impl Default for Strategy` (`Self::UserInChat`). -/
instance : Inhabited Strategy := ⟨Strategy.userInChat⟩

/-- Output of `Strategy::apply` (`IdPair` in `fsm/strategy.rs`).
Rust `i64` identifiers are modelled as unbounded `Int` (no arithmetic is
performed on them, so overflow cannot arise). -/
structure IdPair where
  chat_id : Int
  user_id : Int
  message_thread_id : Option Int
  business_connection_id : Option String
deriving DecidableEq, Repr

/-- Mirrors `Strategy::apply`, case for case. -/
def Strategy.apply (strategy : Strategy) (chat_id user_id : Int)
    (message_thread_id : Option Int) (business_connection_id : Option String) : IdPair :=
  match strategy with
  | .userInChat =>
      { chat_id, user_id, message_thread_id := none, business_connection_id := none }
  | .userInChatAndConnection =>
      { chat_id, user_id, message_thread_id := none, business_connection_id }
  | .chat =>
      { chat_id, user_id := chat_id, message_thread_id := none, business_connection_id := none }
  | .chatAndConnection =>
      { chat_id, user_id := chat_id, message_thread_id := none, business_connection_id }
  | .globalUser =>
      { chat_id := user_id, user_id, message_thread_id := none, business_connection_id := none }
  | .globalUserAndConnection =>
      { chat_id := user_id, user_id, message_thread_id := none, business_connection_id }
  | .userInThread =>
      { chat_id, user_id, message_thread_id, business_connection_id := none }
  | .userInThreadAndConnection =>
      { chat_id, user_id, message_thread_id, business_connection_id }
  | .chatThread =>
      { chat_id, user_id := chat_id, message_thread_id, business_connection_id := none }
  | .chatThreadAndConnection =>
      { chat_id, user_id := chat_id, message_thread_id, business_connection_id }

/-! ## In-memory FSM storage (`fsm/storage/memory.rs`) -/

/-- Modelled from the spec: `StorageKey` (its source `fsm/storage/base.rs` is
not under `src/`): the composite addressing
`{ bot_id, chat_id, user_id, message_thread_id?, business_connection_id?, destiny }`
for one conversation's persisted state.  The memory-storage operations only
ever compare keys for equality, so the exact field set does not influence any
property below. -/
structure StorageKey where
  bot_id : Int
  chat_id : Int
  user_id : Int
  message_thread_id : Option Int
  business_connection_id : Option String
  destiny : String
deriving DecidableEq, Repr

/-- One record of the memory storage (`Record` in `fsm/storage/memory.rs`):
a states stack and a data map.  The `HashMap<Cow<str>, Box<str>>` of
already-serialized values is modelled as a list of key/value entries;
`serde_json` serialization itself is outside the properties checked here, so
values enter the model already in serialized form. -/
structure Record where
  states : List String
  data : List (String × String)
deriving DecidableEq, Repr

/-- The guarded `HashMap<StorageKey, Record>` of `Memory`, modelled as a
function returning `Option Record` (the `Mutex` is irrelevant to the
sequential properties below). -/
def Memory : Type := StorageKey → Option Record

/-- Mirrors `Memory::set_state`: push the state onto the record's states
stack, creating the record if the key is vacant. -/
def Memory.set_state (m : Memory) (key : StorageKey) (state : String) : Memory :=
  fun k =>
    if k = key then
      match m key with
      | some record => some { record with states := record.states ++ [state] }
      | none => some { states := [state], data := [] }
    else m k

/-- Mirrors `Memory::set_previous_state`: pop the top of the states stack
(`Vec::pop`); a vacant key is left vacant. -/
def Memory.set_previous_state (m : Memory) (key : StorageKey) : Memory :=
  fun k =>
    if k = key then
      match m key with
      | some record => some { record with states := record.states.dropLast }
      | none => none
    else m k

/-- Mirrors `Memory::get_state`: the last element of the states stack, or
`none` when the record or the stack is absent. -/
def Memory.get_state (m : Memory) (key : StorageKey) : Option String :=
  match m key with
  | some record => record.states.getLast?
  | none => none

/-- Mirrors `Memory::get_states`: the full states stack, oldest first, or the
empty list when the record is absent. -/
def Memory.get_states (m : Memory) (key : StorageKey) : List String :=
  match m key with
  | some record => record.states
  | none => []

/-- Mirrors `Memory::remove_states`: replace the states stack of an occupied
record with the empty one; a vacant key is left vacant. -/
def Memory.remove_states (m : Memory) (key : StorageKey) : Memory :=
  fun k =>
    if k = key then
      match m key with
      | some record => some { record with states := [] }
      | none => none
    else m k

/-- Mirrors `Memory::set_data`: replace the whole data map of the record,
creating the record (with an empty states stack) if the key is vacant.  The
Rust function special-cases `data.len() == 0` in both branches purely to skip
serialization; the resulting record is the same as in the general branch, so
the model has a single branch per entry state. -/
def Memory.set_data (m : Memory) (key : StorageKey) (data : List (String × String)) : Memory :=
  fun k =>
    if k = key then
      match m key with
      | some record => some { record with data := data }
      | none => some { states := [], data := data }
    else m k

/-- Mirrors `Memory::remove_data`: replace the data map of an occupied record
with the empty one; a vacant key is left vacant. -/
def Memory.remove_data (m : Memory) (key : StorageKey) : Memory :=
  fun k =>
    if k = key then
      match m key with
      | some record => some { record with data := [] }
      | none => none
    else m k

/-- A concrete storage key used to instantiate witnesses. -/
def sampleKey : StorageKey :=
  { bot_id := 0, chat_id := 1, user_id := 2, message_thread_id := none,
    business_connection_id := none, destiny := "default" }

/-- A second, distinct storage key for frame-property witnesses. -/
def otherKey : StorageKey :=
  { bot_id := 2, chat_id := 1, user_id := 0, message_thread_id := none,
    business_connection_id := none, destiny := "default" }

/-- The empty memory storage. -/
def emptyMemory : Memory := fun _ => none

/-- A memory storage holding one record at `sampleKey`, for witnesses. -/
def sampleMemory : Memory :=
  fun k => if k = sampleKey then some { states := ["s1", "s2"], data := [("x", "1")] } else none

/-! ## Telegram observer (`dispatcher/event/telegram/observer.rs`)

The request type is abstracted as a type parameter `Req` (the Rust `Request`
bundles shared `bot`/`update`/`context` handles; `trigger` only clones and
forwards it), and errors as `E`. -/

/-- Response of one handler execution.  Modelled from the spec: the handler
service source (`telegram/handler.rs`) is not under `src/`; per the spec a
handler produces a control signal (`EventReturn`) and `ObserverService::trigger`
inspects it through `is_skip` / `is_cancel`, while the threaded request rides
along in the response. -/
structure HandlerResponse (Req : Type) where
  request : Req
  response : EventReturn
deriving DecidableEq, Repr

/-- A built handler object (`HandlerObjectService`): its filter predicates and
its callback.  Filters in the modelled code are pure-per-request boolean
predicates; the callback may fail with `E`. -/
structure HandlerObjectService (Req E : Type) where
  filters : List (Req → Bool)
  call : Req → Except E (HandlerResponse Req)

/-- Modelled from the spec: `HandlerObjectService::check` (the handler service
source is not under `src/`) evaluates the handler's filters in order and is
true iff all of them pass (spec section 4.1 step 2: short-circuit on the first
false filter; `List.all` short-circuits the same way). -/
def HandlerObjectService.check {Req E : Type} (h : HandlerObjectService Req E)
    (req : Req) : Bool :=
  h.filters.all fun f => f req

/-- An inner middleware, in continuation form: it receives the remainder of
the chain (further middlewares, with the handler at the end) and the request.
The Rust trait hands the first middleware the handler service plus an iterator
of the remaining middlewares; composing that iterator into the continuation
passed here is exactly `applyInnerMiddlewares`. -/
def InnerMiddleware (Req E : Type) : Type :=
  (Req → Except E (HandlerResponse Req)) → Req → Except E (HandlerResponse Req)

/-- Builds the execution of a handler under a chain of inner middlewares:
the first middleware is called with the rest of the chain as continuation
(`middleware.call(handler.service(), handler_req, next_middlewares)`); with no
middlewares the handler is called directly (`handler.call(handler_req)`). -/
def applyInnerMiddlewares {Req E : Type} :
    List (InnerMiddleware Req E) → (Req → Except E (HandlerResponse Req)) →
    Req → Except E (HandlerResponse Req)
  | [], handler, req => handler req
  | middleware :: rest, handler, req =>
      middleware (applyInnerMiddlewares rest handler) req

/-- Response of `ObserverService::trigger` (`Response` in `observer.rs`): the
request and the propagation result, whose `Handled` payload is the handler
response. -/
structure ObserverResponse (Req : Type) where
  request : Req
  response : PropagateEventResult (HandlerResponse Req)
deriving DecidableEq, Repr

/-- A built telegram observer (`ObserverService` in `observer.rs`): handlers
in registration order, the common handler carrying the observer-wide filters
(its callback is a dummy that is never invoked), and the inner middlewares. -/
structure ObserverService (Req E : Type) where
  handlers : List (HandlerObjectService Req E)
  common_handler : HandlerObjectService Req E
  middlewares : List (InnerMiddleware Req E)

/-- One handler's execution as performed inside `trigger`'s loop: either the
direct call or the call through the inner-middleware chain. -/
def executeHandler {Req E : Type} (middlewares : List (InnerMiddleware Req E))
    (handler : HandlerObjectService Req E) (req : Req) : Except E (HandlerResponse Req) :=
  applyInnerMiddlewares middlewares handler.call req

/-- The handler loop of `ObserverService::trigger`: skip handlers whose
filters fail; run the first passing one; on a `Skip` response continue with
the next handler, on `Cancel` yield `Rejected`, otherwise yield `Handled`. -/
def triggerHandlers {Req E : Type} (middlewares : List (InnerMiddleware Req E)) :
    List (HandlerObjectService Req E) → Req → Req → Except E (ObserverResponse Req)
  | [], _, req => .ok { request := req, response := .unhandled }
  | handler :: rest, handler_req, req =>
      if handler.check handler_req then
        match executeHandler middlewares handler handler_req with
        | .error e => .error e
        | .ok res =>
            if res.response.is_skip then
              triggerHandlers middlewares rest handler_req req
            else if res.response.is_cancel then
              .ok { request := req, response := .rejected }
            else
              .ok { request := req, response := .handled res }
      else
        triggerHandlers middlewares rest handler_req req

/-- Mirrors `ObserverService::trigger`: first the common filters (failure
yields `Rejected`), then the handler loop; falling through every handler
yields `Unhandled`. -/
def ObserverService.trigger {Req E : Type} (s : ObserverService Req E)
    (req : Req) : Except E (ObserverResponse Req) :=
  if s.common_handler.check req then
    triggerHandlers s.middlewares s.handlers req req
  else
    .ok { request := req, response := .rejected }

/-- The spec's reading of handler selection (section 4.1 / claim C2), written
from the spec's words: walk the handlers whose filters passed, execute each in
turn, continue past a `Skip`, yield `Rejected` at a `Cancel`, and yield
`Handled` with the first other outcome; an exhausted list is `Unhandled`.
Compared against `ObserverService.trigger` in the C2 theorem. -/
def firstMatchRun {Req E : Type} (middlewares : List (InnerMiddleware Req E))
    (req : Req) : List (HandlerObjectService Req E) → Except E (ObserverResponse Req)
  | [] => .ok { request := req, response := .unhandled }
  | handler :: rest =>
      match executeHandler middlewares handler req with
      | .error e => .error e
      | .ok res =>
          if res.response = .skip then
            firstMatchRun middlewares req rest
          else if res.response = .cancel then
            .ok { request := req, response := .rejected }
          else
            .ok { request := req, response := .handled res }

/-! ## Router (`router.rs`) -/

/-- The telegram update kinds, exactly the variants matched by
`Service::telegram_observer_by_update_type` in `router.rs`. -/
inductive UpdateType : Type where
  | message
  | editedMessage
  | channelPost
  | editedChannelPost
  | businessConnection
  | businessMessage
  | editedBusinessMessage
  | deletedBusinessMessages
  | messageReaction
  | messageReactionCount
  | inlineQuery
  | chosenInlineResult
  | callbackQuery
  | shippingQuery
  | preCheckoutQuery
  | poll
  | pollAnswer
  | myChatMember
  | chatMember
  | chatJoinRequest
  | chatBoost
  | removedChatBoost
deriving DecidableEq, Repr

/-- Response of router-level propagation (`Response` in `router.rs`): the
threaded request and the propagation result, whose `Handled` payload (a
telegram handler response) is abstracted as `R`. -/
structure Response (Req R : Type) where
  request : Req
  propagate_result : PropagateEventResult R
deriving DecidableEq, Repr

/-- A built telegram observer as the router uses it
(`TelegramObserverService`): the router calls only `outer_middlewares()` and
`trigger`, so the service is modelled by those two components.  An outer
middleware (`middleware.call(request)`) returns the possibly updated request
together with an `EventReturn` directive, or fails. -/
structure TelegramObserverService (Req R E : Type) where
  outer_middlewares : List (Req → Except E (Req × EventReturn))
  trigger : Req → Except E (Response Req R)

/-- Modelled from the spec: `SimpleObserverService` (its source
`event/simple/observer.rs` is not under `src/`).  Per the `router.rs` module
docs a simple observer "calls all handlers in order of registration and stops
if one of them returns an error"; the router-level lifecycle claims only need
the observer's identity and the overall outcome of `trigger(())`, so `label`
abstracts which observer this is and `result` the outcome of triggering it. -/
structure SimpleObserverService (E : Type) where
  label : Nat
  result : Except E Unit
deriving DecidableEq, Repr

/-- A built router (`Service` in `router.rs`).  The 22 kind-specific observer
fields are represented by the total function
`telegram_observer_by_update_type` (the `const fn` of the same name maps each
`UpdateType` to the corresponding field, one case per field), alongside the
kind-agnostic `update` observer, the two lifecycle observers and the
sub-routers in registration order. -/
inductive RouterService (Req R E : Type) : Type where
  | mk
      (telegram_observer_by_update_type : UpdateType → TelegramObserverService Req R E)
      (update : TelegramObserverService Req R E)
      (startup : SimpleObserverService E)
      (shutdown : SimpleObserverService E)
      (sub_routers : List (RouterService Req R E))

/-- Field accessor for the kind-specific observers. -/
def RouterService.telegram_observer_by_update_type {Req R E : Type} :
    RouterService Req R E → UpdateType → TelegramObserverService Req R E
  | .mk o _ _ _ _ => o

/-- Field accessor for the kind-agnostic `update` observer. -/
def RouterService.update {Req R E : Type} :
    RouterService Req R E → TelegramObserverService Req R E
  | .mk _ u _ _ _ => u

/-- Field accessor for the startup observer. -/
def RouterService.startup {Req R E : Type} :
    RouterService Req R E → SimpleObserverService E
  | .mk _ _ st _ _ => st

/-- Field accessor for the shutdown observer. -/
def RouterService.shutdown {Req R E : Type} :
    RouterService Req R E → SimpleObserverService E
  | .mk _ _ _ sd _ => sd

/-- Field accessor for the sub-routers. -/
def RouterService.sub_routers {Req R E : Type} :
    RouterService Req R E → List (RouterService Req R E)
  | .mk _ _ _ _ subs => subs

/-- Outcome of a run of outer middlewares: either proceed with the threaded
request, or propagation was cancelled (the request at cancellation time is
kept, since the cancelling middleware's own update is discarded). -/
inductive OuterOutcome (Req : Type) : Type where
  | proceed (request : Req)
  | cancelled (request : Req)
deriving DecidableEq, Repr

/-- The outer-middleware loop shared by `propagate_event` and
`propagate_update_event` in `router.rs`: `Finish` replaces the threaded
request by the middleware's updated one, `Skip` keeps the current request
(discarding that middleware's changes), and `Cancel` stops the loop,
reporting cancellation with the current request. -/
def runOuterMiddlewares {Req E : Type} :
    List (Req → Except E (Req × EventReturn)) → Req → Except E (OuterOutcome Req)
  | [], req => .ok (.proceed req)
  | middleware :: rest, req =>
      match middleware req with
      | .error e => .error e
      | .ok (updated, .finish) => runOuterMiddlewares rest updated
      | .ok (_, .skip) => runOuterMiddlewares rest req
      | .ok (_, .cancel) => .ok (.cancelled req)

/-- Body of `Service::propagate_update_event`, over the router's `update`
observer: run that observer's outer middlewares (`Cancel` yields `Rejected`),
then its `trigger`; `Handled` and `Unhandled` pass through, and a `Rejected`
trigger result is returned as `Unhandled` ("Router don't know about rejected
event by observer, so it returns unhandled response"). -/
def propagateUpdateEventCore {Req R E : Type}
    (update : TelegramObserverService Req R E) (req : Req) : Except E (Response Req R) :=
  match runOuterMiddlewares update.outer_middlewares req with
  | .error e => .error e
  | .ok (.cancelled r) => .ok { request := r, propagate_result := .rejected }
  | .ok (.proceed r) =>
      match update.trigger r with
      | .error e => .error e
      | .ok observer_response =>
          match observer_response.propagate_result with
          | .unhandled => .ok { request := r, propagate_result := .unhandled }
          | .handled response => .ok { request := r, propagate_result := .handled response }
          | .rejected => .ok { request := r, propagate_result := .unhandled }

/-- Mirrors `Service::propagate_update_event`. -/
def RouterService.propagate_update_event {Req R E : Type}
    (s : RouterService Req R E) (req : Req) : Except E (Response Req R) :=
  propagateUpdateEventCore s.update req

mutual

/-- Mirrors `Service::propagate_event`: first `propagate_update_event` for
this router (its `Handled` or `Rejected` result is returned immediately);
on `Unhandled` the kind-specific stage runs on the original request. -/
def RouterService.propagate_event {Req R E : Type} :
    RouterService Req R E → UpdateType → Req → Except E (Response Req R)
  | .mk observers update _ _ subs, update_type, req =>
      match propagateUpdateEventCore update req with
      | .error e => .error e
      | .ok response =>
          match response.propagate_result with
          | .handled r =>
              .ok { request := response.request, propagate_result := .handled r }
          | .rejected =>
              .ok { request := response.request, propagate_result := .rejected }
          | .unhandled =>
              propagateKindStage (observers update_type) subs update_type req

/-- The kind-specific part of `Service::propagate_event`: the selected
observer's outer middlewares (`Cancel` yields `Rejected`), then its `trigger`
(`Handled` is returned; `Rejected` is absorbed into `Unhandled`; `Unhandled`
falls through to the sub-routers). -/
def propagateKindStage {Req R E : Type}
    (observer : TelegramObserverService Req R E) (subs : List (RouterService Req R E))
    (update_type : UpdateType) (req : Req) : Except E (Response Req R) :=
  match runOuterMiddlewares observer.outer_middlewares req with
  | .error e => .error e
  | .ok (.cancelled r) => .ok { request := r, propagate_result := .rejected }
  | .ok (.proceed r) =>
      match observer.trigger r with
      | .error e => .error e
      | .ok observer_response =>
          match observer_response.propagate_result with
          | .handled response =>
              .ok { request := r, propagate_result := .handled response }
          | .rejected =>
              .ok { request := r, propagate_result := .unhandled }
          | .unhandled =>
              propagateSubRouters subs update_type r

/-- The sub-router loop of `Service::propagate_event`: recursively propagate
to each child in registration order; an `Unhandled` child is skipped, while a
child's `Handled` or `Rejected` response is returned verbatim; an exhausted
list yields `Unhandled`. -/
def propagateSubRouters {Req R E : Type} :
    List (RouterService Req R E) → UpdateType → Req → Except E (Response Req R)
  | [], _, req => .ok { request := req, propagate_result := .unhandled }
  | router :: rest, update_type, req =>
      match RouterService.propagate_event router update_type req with
      | .error e => .error e
      | .ok router_response =>
          match router_response.propagate_result with
          | .unhandled => propagateSubRouters rest update_type req
          | .handled _ => .ok router_response
          | .rejected => .ok router_response

end

/-- Sequential run of simple observers as in the `emit_startup` /
`emit_shutdown` loops (`observer.trigger(()).await?`), instrumented with the
trace of the observers actually triggered: the run stops at the first
observer whose trigger errors, and no observer after it is triggered. -/
def runSimpleObservers {E : Type} :
    List (SimpleObserverService E) → List Nat × Except E Unit
  | [] => ([], .ok ())
  | observer :: rest =>
      match observer.result with
      | .error e => ([observer.label], .error e)
      | .ok _ =>
          let restRun := runSimpleObservers rest
          (observer.label :: restRun.1, restRun.2)

/-- The iterator of `Service::emit_startup`:
`once(&self.startup).chain(self.sub_routers.iter().map(|router| &router.startup))` —
the router's own startup observer followed by each direct sub-router's. -/
def RouterService.startup_observers {Req R E : Type}
    (s : RouterService Req R E) : List (SimpleObserverService E) :=
  s.startup :: s.sub_routers.map RouterService.startup

/-- The iterator of `Service::emit_shutdown`, analogous to
`startup_observers`. -/
def RouterService.shutdown_observers {Req R E : Type}
    (s : RouterService Req R E) : List (SimpleObserverService E) :=
  s.shutdown :: s.sub_routers.map RouterService.shutdown

/-- Mirrors `Service::emit_startup`, with the trace of triggered observers. -/
def RouterService.emit_startup {Req R E : Type}
    (s : RouterService Req R E) : List Nat × Except E Unit :=
  runSimpleObservers s.startup_observers

/-- Mirrors `Service::emit_shutdown`, with the trace of triggered
observers. -/
def RouterService.emit_shutdown {Req R E : Type}
    (s : RouterService Req R E) : List Nat × Except E Unit :=
  runSimpleObservers s.shutdown_observers

mutual

/-- The spec's reading of the startup sequence (claim C4): the startup
observers of every router in the tree, depth-first, pre-order, sub-trees in
child registration order.  Compared against `startup_observers`. -/
def RouterService.preorderStartups {Req R E : Type} :
    RouterService Req R E → List (SimpleObserverService E)
  | .mk _ _ st _ subs => st :: preorderStartupsOf subs

/-- Pre-order startup observers of a forest of routers. -/
def preorderStartupsOf {Req R E : Type} :
    List (RouterService Req R E) → List (SimpleObserverService E)
  | [] => []
  | router :: rest => RouterService.preorderStartups router ++ preorderStartupsOf rest

end

/-! ## Concrete fixtures used by witnesses and counterexamples

All instantiated at `Req = R = E = Nat`. -/

/-- An observer with no outer middlewares whose trigger leaves every request
unhandled. -/
def noObs : TelegramObserverService Nat Nat Nat :=
  { outer_middlewares := []
    trigger := fun r => .ok { request := r, propagate_result := .unhandled } }

/-- An observer with no outer middlewares whose trigger rejects every
request. -/
def rejObs : TelegramObserverService Nat Nat Nat :=
  { outer_middlewares := []
    trigger := fun r => .ok { request := r, propagate_result := .rejected } }

/-- An observer with no outer middlewares whose trigger handles every request
with payload `42`. -/
def handledObs : TelegramObserverService Nat Nat Nat :=
  { outer_middlewares := []
    trigger := fun r => .ok { request := r, propagate_result := .handled 42 } }

/-- An observer whose single outer middleware cancels propagation; its
trigger (never reached) would leave the request unhandled. -/
def cancelObs : TelegramObserverService Nat Nat Nat :=
  { outer_middlewares := [fun r => .ok (r, .cancel)]
    trigger := fun r => .ok { request := r, propagate_result := .unhandled } }

/-- A successful simple observer with the given label. -/
def sOk (n : Nat) : SimpleObserverService Nat := { label := n, result := .ok () }

/-- A leaf router whose lifecycle observers carry label `2`. -/
def grandchildRouter : RouterService Nat Nat Nat :=
  .mk (fun _ => noObs) noObs (sOk 2) (sOk 12) []

/-- A router with one child (`grandchildRouter`), lifecycle label `1`. -/
def childRouter : RouterService Nat Nat Nat :=
  .mk (fun _ => noObs) noObs (sOk 1) (sOk 11) [grandchildRouter]

/-- A three-level chain of routers, lifecycle label `0` at the root. -/
def rootRouter : RouterService Nat Nat Nat :=
  .mk (fun _ => noObs) noObs (sOk 0) (sOk 10) [childRouter]

/-- A router whose first child's startup observer fails with error `5`. -/
def failRouter : RouterService Nat Nat Nat :=
  .mk (fun _ => noObs) noObs (sOk 0) (sOk 20)
    [.mk (fun _ => noObs) noObs { label := 1, result := .error 5 } (sOk 21) [],
     .mk (fun _ => noObs) noObs (sOk 2) (sOk 22) []]

/-- A childless router whose kind-specific observers reject every request. -/
def parentA : RouterService Nat Nat Nat :=
  .mk (fun _ => rejObs) noObs (sOk 30) (sOk 31) []

/-- A leaf router that leaves every request unhandled. -/
def unhChild : RouterService Nat Nat Nat :=
  .mk (fun _ => noObs) noObs (sOk 32) (sOk 33) []

/-- A leaf router whose kind-specific observers' outer middleware cancels,
so its propagation result is `Rejected`. -/
def cancelChild : RouterService Nat Nat Nat :=
  .mk (fun _ => cancelObs) noObs (sOk 34) (sOk 35) []

/-- A router whose own observers leave requests unhandled and whose second
child rejects them. -/
def parentB : RouterService Nat Nat Nat :=
  .mk (fun _ => noObs) noObs (sOk 36) (sOk 37) [unhChild, cancelChild]

/-- A router whose kind-agnostic `update` observer handles every request. -/
def parentC : RouterService Nat Nat Nat :=
  .mk (fun _ => noObs) handledObs (sOk 38) (sOk 39) [unhChild]

/-- A router whose kind observers' outer middleware cancels while its
`update` observer leaves requests unhandled. -/
def parentD : RouterService Nat Nat Nat :=
  .mk (fun _ => cancelObs) noObs (sOk 40) (sOk 41) [unhChild]

/-- An outer middleware that bumps the request and finishes. -/
def mwAdd : Nat → Except Nat (Nat × EventReturn) := fun r => .ok (r + 1, .finish)

/-- An outer middleware that changes the request but skips (so its change is
discarded). -/
def mwSkip : Nat → Except Nat (Nat × EventReturn) := fun r => .ok (r + 50, .skip)

/-- An outer middleware that cancels propagation. -/
def mwCancel : Nat → Except Nat (Nat × EventReturn) := fun r => .ok (r, .cancel)

/-- Filter passing even requests. -/
def evenFilter : Nat → Bool := fun r => r % 2 = 0

/-- A handler that skips on even requests. -/
def hSkip : HandlerObjectService Nat Nat :=
  { filters := [evenFilter], call := fun r => .ok { request := r, response := .skip } }

/-- A handler that finishes on even requests, bumping the request by 100. -/
def hFinish : HandlerObjectService Nat Nat :=
  { filters := [evenFilter], call := fun r => .ok { request := r + 100, response := .finish } }

/-- A handler that cancels on odd requests. -/
def hCancel : HandlerObjectService Nat Nat :=
  { filters := [fun r => r % 2 = 1], call := fun r => .ok { request := r, response := .cancel } }

/-- A common handler with no filters (its dummy callback is never used). -/
def passCommon : HandlerObjectService Nat Nat :=
  { filters := [], call := fun r => .ok { request := r, response := .finish } }

/-- A common handler whose single filter always fails. -/
def failCommon : HandlerObjectService Nat Nat :=
  { filters := [fun _ => false], call := fun r => .ok { request := r, response := .finish } }

/-- Observer with passing common filters and three handlers. -/
def obsPass : ObserverService Nat Nat :=
  { handlers := [hSkip, hFinish, hCancel], common_handler := passCommon, middlewares := [] }

/-- Observer with failing common filters. -/
def obsFail : ObserverService Nat Nat :=
  { handlers := [hSkip, hFinish, hCancel], common_handler := failCommon, middlewares := [] }

/-- Observer whose only matching handler skips. -/
def obsAllSkip : ObserverService Nat Nat :=
  { handlers := [hSkip, hCancel], common_handler := passCommon, middlewares := [] }

/-! ## Theorems -/

/-- C9: `Strategy::apply` with `chat_id = 10`, `user_id = 20` produces id
pair `(10, 20)` under `UserInChat`, `(10, 10)` under `Chat` and `(20, 20)`
under `GlobalUser`; the `GlobalUser` result is independent of the `chat_id`
argument; and the default strategy is `UserInChat`, scoping by
`(chat_id, user_id)` only, with no thread or business-connection
component. -/
theorem strategy_apply_spec (c u : Int) (t : Option Int) (b : Option String) :
    Strategy.apply .userInChat 10 20 t b =
      { chat_id := 10, user_id := 20, message_thread_id := none,
        business_connection_id := none } ∧
    Strategy.apply .chat 10 20 t b =
      { chat_id := 10, user_id := 10, message_thread_id := none,
        business_connection_id := none } ∧
    Strategy.apply .globalUser 10 20 t b =
      { chat_id := 20, user_id := 20, message_thread_id := none,
        business_connection_id := none } ∧
    (∀ c2 : Int, Strategy.apply .globalUser c u t b = Strategy.apply .globalUser c2 u t b) ∧
    (default : Strategy) = .userInChat ∧
    Strategy.apply default c u t b =
      { chat_id := c, user_id := u, message_thread_id := none,
        business_connection_id := none } :=
  ⟨rfl, rfl, rfl, fun _ => rfl, rfl, rfl⟩

/-- C7: starting from any storage with no record at `k`, pushing states
`"A"` then `"B"` yields the stack `["A", "B"]` (oldest first) with current
state `"B"`; a further `set_previous_state` makes the current state `"A"`;
`remove_states` then empties the stack and the current state; and
`set_previous_state` on an absent or empty stack is a no-op on the whole
storage. -/
theorem memory_state_round_trip (m : Memory) (k : StorageKey) (h : m k = none) :
    Memory.get_states ((m.set_state k "A").set_state k "B") k = ["A", "B"] ∧
    Memory.get_state ((m.set_state k "A").set_state k "B") k = some "B" ∧
    Memory.get_state (((m.set_state k "A").set_state k "B").set_previous_state k) k
      = some "A" ∧
    Memory.get_states ((((m.set_state k "A").set_state k "B").set_previous_state k).remove_states k) k
      = [] ∧
    Memory.get_state ((((m.set_state k "A").set_state k "B").set_previous_state k).remove_states k) k
      = none ∧
    (∀ (m0 : Memory) (k0 : StorageKey), m0 k0 = none → m0.set_previous_state k0 = m0) ∧
    (∀ (m0 : Memory) (k0 : StorageKey) (r : Record), m0 k0 = some r → r.states = [] →
      m0.set_previous_state k0 = m0) := by
  refine ⟨?_, ?_, ?_, ?_, ?_, ?_, ?_⟩
  · simp [Memory.set_state, Memory.get_states, h]
  · simp [Memory.set_state, Memory.get_state, h]
  · simp [Memory.set_state, Memory.set_previous_state, Memory.get_state, h]
  · simp [Memory.set_state, Memory.set_previous_state, Memory.remove_states,
      Memory.get_states, h]
  · simp [Memory.set_state, Memory.set_previous_state, Memory.remove_states,
      Memory.get_state, h]
  · intro m0 k0 h0
    funext k2
    by_cases hk : k2 = k0
    · subst hk
      simp [Memory.set_previous_state, h0]
    · simp [Memory.set_previous_state, hk]
  · intro m0 k0 r h0 hst
    funext k2
    by_cases hk : k2 = k0
    · subst hk
      obtain ⟨states, data⟩ := r
      simp only [Record.mk.injEq] at hst
      subst hst
      simp [Memory.set_previous_state, h0]
    · simp [Memory.set_previous_state, hk]

/-- Witness for C7 at the empty storage and a concrete key. -/
theorem memory_state_round_trip_witness :
    Memory.get_states ((emptyMemory.set_state sampleKey "A").set_state sampleKey "B") sampleKey
      = ["A", "B"] ∧
    Memory.get_state ((emptyMemory.set_state sampleKey "A").set_state sampleKey "B") sampleKey
      = some "B" ∧
    Memory.get_state (((emptyMemory.set_state sampleKey "A").set_state sampleKey "B").set_previous_state sampleKey) sampleKey
      = some "A" ∧
    Memory.get_states ((((emptyMemory.set_state sampleKey "A").set_state sampleKey "B").set_previous_state sampleKey).remove_states sampleKey) sampleKey
      = [] ∧
    Memory.get_state ((((emptyMemory.set_state sampleKey "A").set_state sampleKey "B").set_previous_state sampleKey).remove_states sampleKey) sampleKey
      = none :=
  ⟨(memory_state_round_trip emptyMemory sampleKey rfl).1,
   (memory_state_round_trip emptyMemory sampleKey rfl).2.1,
   (memory_state_round_trip emptyMemory sampleKey rfl).2.2.1,
   (memory_state_round_trip emptyMemory sampleKey rfl).2.2.2.1,
   (memory_state_round_trip emptyMemory sampleKey rfl).2.2.2.2.1⟩

/-- C8: on a stored record, `set_data` replaces the whole data map and keeps
the states stack (with the empty map this clears the data without discarding
the states), `remove_data` clears only the data, `remove_states` clears only
the states, and records at every other key are untouched by all three
operations. -/
theorem memory_data_frame (m : Memory) (k k2 : StorageKey) (r : Record)
    (d : List (String × String)) (h : m k = some r) (hne : k2 ≠ k) :
    (m.set_data k d) k = some { states := r.states, data := d } ∧
    (m.set_data k []) k = some { states := r.states, data := [] } ∧
    (m.remove_data k) k = some { states := r.states, data := [] } ∧
    (m.remove_states k) k = some { states := [], data := r.data } ∧
    (m.set_data k d) k2 = m k2 ∧
    (m.remove_data k) k2 = m k2 ∧
    (m.remove_states k) k2 = m k2 := by
  refine ⟨?_, ?_, ?_, ?_, ?_, ?_, ?_⟩
  · simp [Memory.set_data, h]
  · simp [Memory.set_data, h]
  · simp [Memory.remove_data, h]
  · simp [Memory.remove_states, h]
  · simp [Memory.set_data, hne]
  · simp [Memory.remove_data, hne]
  · simp [Memory.remove_states, hne]

/-- The handler loop realizes handler selection on the filtered handler
list: interleaving filter checks with execution agrees with first filtering
out the non-matching handlers and then running the matching ones in order. -/
theorem triggerHandlers_eq_firstMatchRun {Req E : Type}
    (mws : List (InnerMiddleware Req E)) (req : Req)
    (hs : List (HandlerObjectService Req E)) :
    triggerHandlers mws hs req req =
      firstMatchRun mws req (hs.filter fun h => h.check req) := by
  induction hs with
  | nil => rfl
  | cons h rest ih =>
    by_cases hc : h.check req = true
    · rw [List.filter_cons_of_pos (by simpa using hc)]
      simp only [triggerHandlers, firstMatchRun, if_pos hc]
      cases hexec : executeHandler mws h req with
      | error e => rfl
      | ok res =>
        cases hres : res.response with
        | finish => simp [hres, EventReturn.is_skip, EventReturn.is_cancel]
        | skip => simp [hres, EventReturn.is_skip, ih]
        | cancel => simp [hres, EventReturn.is_skip, EventReturn.is_cancel]
    · rw [List.filter_cons_of_neg (by simpa using hc)]
      simp only [triggerHandlers, if_neg hc]
      exact ih

/-- Handlers after the first deciding one are irrelevant: once a handler's
filters pass and its execution does not signal `Skip`, the loop's result is
the same whatever handlers follow it. -/
theorem triggerHandlers_append_stop {Req E : Type}
    (mws : List (InnerMiddleware Req E)) (hreq r : Req)
    (pre : List (HandlerObjectService Req E)) (h : HandlerObjectService Req E)
    (post : List (HandlerObjectService Req E)) (res : HandlerResponse Req)
    (hc : h.check hreq = true) (hexec : executeHandler mws h hreq = .ok res)
    (hns : res.response ≠ .skip) :
    triggerHandlers mws (pre ++ h :: post) hreq r =
      triggerHandlers mws (pre ++ [h]) hreq r := by
  induction pre with
  | nil =>
    simp only [List.nil_append, triggerHandlers, if_pos hc, hexec]
    cases hres : res.response with
    | finish => simp [hres, EventReturn.is_skip, EventReturn.is_cancel]
    | skip => exact absurd hres hns
    | cancel => simp [hres, EventReturn.is_skip, EventReturn.is_cancel]
  | cons p pre ih =>
    simp only [List.cons_append, triggerHandlers]
    by_cases hp : p.check hreq = true
    · simp only [if_pos hp]
      cases hexecp : executeHandler mws p hreq with
      | error e => rfl
      | ok resp =>
        cases hrr : resp.response with
        | finish => simp [hrr, EventReturn.is_skip, EventReturn.is_cancel]
        | skip => simp [hrr, EventReturn.is_skip, ih]
        | cancel => simp [hrr, EventReturn.is_skip, EventReturn.is_cancel]
    · simp only [if_neg hp]
      exact ih

/-- A loop over handlers that each either fail their filters or execute to a
`Skip` signal falls through to `Unhandled`. -/
theorem triggerHandlers_all_skip {Req E : Type}
    (mws : List (InnerMiddleware Req E)) (req : Req)
    (hs : List (HandlerObjectService Req E))
    (hall : ∀ h ∈ hs, h.check req = false ∨
      ∃ res, executeHandler mws h req = .ok res ∧ res.response = .skip) :
    triggerHandlers mws hs req req = .ok { request := req, response := .unhandled } := by
  induction hs with
  | nil => rfl
  | cons h rest ih =>
    have hrest : ∀ q ∈ rest, q.check req = false ∨
        ∃ res, executeHandler mws q req = .ok res ∧ res.response = .skip :=
      fun q hq => hall q (List.mem_cons_of_mem h hq)
    rcases hall h (List.mem_cons_self h rest) with hc | ⟨res, hexec, hskip⟩
    · have hcb : ¬ (h.check req = true) := by simp [hc]
      simp only [triggerHandlers]
      rw [if_neg hcb]
      exact ih hrest
    · by_cases hcb : h.check req = true
      · simp only [triggerHandlers, if_pos hcb, hexec, hskip, EventReturn.is_skip,
          if_pos rfl]
        exact ih hrest
      · simp only [triggerHandlers, if_neg hcb]
        exact ih hrest

/-- C2: for every observer whose common filters pass and every request,
`trigger` realizes first-match selection: it is the run over exactly the
handlers whose own filters all pass, in registration order, where a `Skip`
execution outcome moves on to the next matching handler just as a failed
filter would, `Cancel` yields `Rejected`, and any other outcome yields
`Handled` with that handler's result; moreover handlers after the first
deciding handler are irrelevant to the result. -/
theorem trigger_first_match_semantics {Req E : Type} (s : ObserverService Req E)
    (req : Req) (hcommon : s.common_handler.check req = true) :
    s.trigger req =
      firstMatchRun s.middlewares req (s.handlers.filter fun h => h.check req) ∧
    (∀ pre h post res, s.handlers = pre ++ h :: post → h.check req = true →
      executeHandler s.middlewares h req = .ok res → res.response ≠ .skip →
      s.trigger req = ObserverService.trigger { s with handlers := pre ++ [h] } req) := by
  constructor
  · unfold ObserverService.trigger
    rw [if_pos hcommon]
    exact triggerHandlers_eq_firstMatchRun s.middlewares req s.handlers
  · intro pre h post res hsplit hc hexec hns
    unfold ObserverService.trigger
    simp only [if_pos hcommon]
    rw [hsplit]
    exact triggerHandlers_append_stop s.middlewares req req pre h post res hc hexec hns

/-- Witness for C2: on request `4`, `obsPass`'s first handler matches and
skips, the second matches and finishes, so the trigger result agrees with the
first-match run and with the observer truncated after its deciding
handler. -/
theorem trigger_first_match_semantics_witness :
    ObserverService.trigger obsPass 4 =
      firstMatchRun obsPass.middlewares 4 (obsPass.handlers.filter fun h => h.check 4) ∧
    ObserverService.trigger obsPass 4 =
      ObserverService.trigger { obsPass with handlers := [hSkip, hFinish] } 4 :=
  ⟨(trigger_first_match_semantics obsPass 4 rfl).1,
   (trigger_first_match_semantics obsPass 4 rfl).2 [hSkip] hFinish [hCancel]
     { request := 104, response := .finish } rfl rfl rfl (by decide)⟩

/-- C3: for every observer and request, a failed common filter makes
`trigger` return `Rejected` whatever the handlers are (so no handler is
consulted, and common-filter failure never yields `Unhandled`); and when the
common filters pass but every handler either fails its own filters or
executes to a `Skip` signal (including the zero-handler case), `trigger`
returns `Unhandled`. -/
theorem trigger_reject_unhandled_partition {Req E : Type} (s : ObserverService Req E)
    (req : Req) :
    (s.common_handler.check req = false →
      s.trigger req = .ok { request := req, response := .rejected } ∧
      ∀ hs, ObserverService.trigger { s with handlers := hs } req =
        .ok { request := req, response := .rejected }) ∧
    (s.common_handler.check req = true →
      (∀ h ∈ s.handlers, h.check req = false ∨
        ∃ res, executeHandler s.middlewares h req = .ok res ∧ res.response = .skip) →
      s.trigger req = .ok { request := req, response := .unhandled }) := by
  constructor
  · intro hc
    have hc2 : ¬ (s.common_handler.check req = true) := by simp [hc]
    constructor
    · unfold ObserverService.trigger
      rw [if_neg hc2]
    · intro hs
      unfold ObserverService.trigger
      exact if_neg hc2
  · intro hc hall
    unfold ObserverService.trigger
    rw [if_pos hc]
    exact triggerHandlers_all_skip s.middlewares req s.handlers hall

/-- Witness for C3: `obsFail`'s common filter fails on request `4`, giving
`Rejected`; `obsAllSkip`'s only matching handler skips, giving
`Unhandled`. -/
theorem trigger_reject_unhandled_partition_witness :
    ObserverService.trigger obsFail 4 = .ok { request := 4, response := .rejected } ∧
    ObserverService.trigger obsAllSkip 4 = .ok { request := 4, response := .unhandled } :=
  ⟨((trigger_reject_unhandled_partition obsFail 4).1 rfl).1,
   (trigger_reject_unhandled_partition obsAllSkip 4).2 rfl (by
      intro h hm
      simp only [obsAllSkip] at hm
      rcases List.mem_cons.mp hm with rfl | hm2
      · exact Or.inr ⟨{ request := 4, response := .skip }, rfl, rfl⟩
      · rcases List.mem_singleton.mp hm2 with rfl
        exact Or.inl rfl)⟩

/-- Witness for C8 at a concrete storage, record, key and other key. -/
theorem memory_data_frame_witness :
    (sampleMemory.set_data sampleKey [("y", "2")]) sampleKey
      = some { states := ["s1", "s2"], data := [("y", "2")] } ∧
    (sampleMemory.set_data sampleKey []) sampleKey
      = some { states := ["s1", "s2"], data := [] } ∧
    (sampleMemory.remove_data sampleKey) sampleKey
      = some { states := ["s1", "s2"], data := [] } ∧
    (sampleMemory.remove_states sampleKey) sampleKey
      = some { states := [], data := [("x", "1")] } ∧
    (sampleMemory.set_data sampleKey [("y", "2")]) otherKey = sampleMemory otherKey ∧
    (sampleMemory.remove_data sampleKey) otherKey = sampleMemory otherKey ∧
    (sampleMemory.remove_states sampleKey) otherKey = sampleMemory otherKey :=
  memory_data_frame sampleMemory sampleKey otherKey
    { states := ["s1", "s2"], data := [("x", "1")] } [("y", "2")] (by decide) (by decide)

/-- A sequence of simple observers that all succeed runs each exactly once,
in order. -/
theorem runSimpleObservers_all_ok {E : Type} (L : List (SimpleObserverService E))
    (h : ∀ o ∈ L, o.result = .ok ()) :
    runSimpleObservers L = (L.map SimpleObserverService.label, .ok ()) := by
  induction L with
  | nil => rfl
  | cons o rest ih =>
    have ho := h o (List.mem_cons_self o rest)
    have ih2 := ih (fun q hq => h q (List.mem_cons_of_mem o hq))
    simp [runSimpleObservers, ho, ih2]

/-- A sequence of simple observers stops at the first failing one: the
observers before it run once each, the failing one runs, nothing after it
runs, and its error is returned. -/
theorem runSimpleObservers_first_error {E : Type}
    (pre : List (SimpleObserverService E)) (o : SimpleObserverService E)
    (post : List (SimpleObserverService E)) (e : E)
    (hpre : ∀ p ∈ pre, p.result = .ok ()) (ho : o.result = .error e) :
    runSimpleObservers (pre ++ o :: post) =
      (pre.map SimpleObserverService.label ++ [o.label], .error e) := by
  induction pre with
  | nil => simp [runSimpleObservers, ho]
  | cons p rest ih =>
    have hp := hpre p (List.mem_cons_self p rest)
    have ih2 := ih (fun q hq => hpre q (List.mem_cons_of_mem p hq))
    simp [runSimpleObservers, hp, ih2]

/-- C4 counterexample: on the three-level chain `rootRouter` every lifecycle
observer succeeds, yet `emit_startup` triggers only the root's and its direct
child's startup observers (labels `0` and `1`); the grandchild's observer
(label `2`), although part of the tree's pre-order sequence, is never run —
refuting the claim that the lifecycle observer of every router in the tree
runs. -/
theorem emit_startup_misses_grandchild :
    (∀ o ∈ RouterService.preorderStartups rootRouter, o.result = Except.ok ()) ∧
    (RouterService.preorderStartups rootRouter).map SimpleObserverService.label
      = [0, 1, 2] ∧
    RouterService.emit_startup rootRouter = ([0, 1], Except.ok ()) ∧
    (RouterService.emit_startup rootRouter).1 ≠
      (RouterService.preorderStartups rootRouter).map SimpleObserverService.label ∧
    2 ∉ (RouterService.emit_startup rootRouter).1 := by decide

/-- C4 (amended): `emit_startup` (and likewise `emit_shutdown`) runs the
lifecycle Observer of the router itself and then of each of its direct child
routers in registration order — not of any deeper descendant — each exactly
once, and aborts the sequence at the first observer that returns an error,
running no lifecycle Observer after the failing one. -/
theorem emit_lifecycle_direct_children {Req R E : Type} (s : RouterService Req R E) :
    ((∀ o ∈ s.startup_observers, o.result = .ok ()) →
      s.emit_startup = (s.startup_observers.map SimpleObserverService.label, .ok ())) ∧
    (∀ pre o post e, s.startup_observers = pre ++ o :: post →
      (∀ p ∈ pre, p.result = .ok ()) → o.result = .error e →
      s.emit_startup = (pre.map SimpleObserverService.label ++ [o.label], .error e)) ∧
    s.startup_observers = s.startup :: s.sub_routers.map RouterService.startup ∧
    ((∀ o ∈ s.shutdown_observers, o.result = .ok ()) →
      s.emit_shutdown = (s.shutdown_observers.map SimpleObserverService.label, .ok ())) ∧
    (∀ pre o post e, s.shutdown_observers = pre ++ o :: post →
      (∀ p ∈ pre, p.result = .ok ()) → o.result = .error e →
      s.emit_shutdown = (pre.map SimpleObserverService.label ++ [o.label], .error e)) ∧
    s.shutdown_observers = s.shutdown :: s.sub_routers.map RouterService.shutdown := by
  refine ⟨?_, ?_, rfl, ?_, ?_, rfl⟩
  · intro h
    exact runSimpleObservers_all_ok _ h
  · intro pre o post e hsplit hpre ho
    unfold RouterService.emit_startup
    rw [hsplit]
    exact runSimpleObservers_first_error pre o post e hpre ho
  · intro h
    exact runSimpleObservers_all_ok _ h
  · intro pre o post e hsplit hpre ho
    unfold RouterService.emit_shutdown
    rw [hsplit]
    exact runSimpleObservers_first_error pre o post e hpre ho

/-- Witness for amended C4: on `rootRouter` all observers succeed and the
trace is root-then-child; on `failRouter` the first child's startup error `5`
aborts the run before the second child's observer. -/
theorem emit_lifecycle_direct_children_witness :
    RouterService.emit_startup rootRouter = ([0, 1], Except.ok ()) ∧
    RouterService.emit_startup failRouter = ([0, 1], Except.error 5) := by
  constructor
  · have h := (emit_lifecycle_direct_children rootRouter).1 (by decide)
    rw [h]
    decide
  · have h := (emit_lifecycle_direct_children failRouter).2.1 [sOk 0]
      { label := 1, result := .error 5 } [sOk 2] 5 (by decide) (by decide) (by decide)
    rw [h]
    decide

/-- Splitting a run of outer middlewares at an append: the suffix runs on the
request threaded out of the prefix, and a cancelled prefix short-circuits. -/
theorem runOuterMiddlewares_append {Req E : Type}
    (l1 l2 : List (Req → Except E (Req × EventReturn))) (req : Req) :
    runOuterMiddlewares (l1 ++ l2) req =
      (match runOuterMiddlewares l1 req with
        | .error e => .error e
        | .ok (.proceed r) => runOuterMiddlewares l2 r
        | .ok (.cancelled r) => .ok (.cancelled r)) := by
  induction l1 generalizing req with
  | nil => rfl
  | cons m rest ih =>
    simp only [List.cons_append, runOuterMiddlewares]
    cases hm : m req with
    | error e => rfl
    | ok pr =>
      obtain ⟨r2, ret⟩ := pr
      cases ret with
      | finish => exact ih r2
      | skip => exact ih req
      | cancel => rfl

/-- A prefix of sub-routers that all leave the event unhandled does not
affect the sub-router loop. -/
theorem propagateSubRouters_skip_unhandled {Req R E : Type} (ut : UpdateType) (r : Req)
    (pre rest : List (RouterService Req R E))
    (hpre : ∀ p ∈ pre, ∃ rp, RouterService.propagate_event p ut r =
      .ok { request := rp, propagate_result := .unhandled }) :
    propagateSubRouters (pre ++ rest) ut r = propagateSubRouters rest ut r := by
  induction pre with
  | nil => rfl
  | cons p pre2 ih =>
    obtain ⟨rp, hp⟩ := hpre p (List.mem_cons_self p pre2)
    simp only [List.cons_append, propagateSubRouters, hp]
    exact ih (fun q hq => hpre q (List.mem_cons_of_mem p hq))

/-- C1: for every router whose kind-agnostic update stage left the event
unhandled and whose kind-specific outer middlewares proceeded, a `Rejected`
result of the router's own kind-specific observer's trigger makes
`propagate_event` return `Unhandled`; whereas when that trigger leaves the
event unhandled and some child router (after unhandled-returning siblings)
returns `Rejected`, the parent returns the child's `Rejected` response
unchanged.  Stated for arbitrary routers, sub-router lists and positions of
the rejecting child. -/
theorem propagate_event_rejection_asymmetry {Req R E : Type}
    (observers : UpdateType → TelegramObserverService Req R E)
    (update : TelegramObserverService Req R E)
    (st sd : SimpleObserverService E) (subs : List (RouterService Req R E))
    (ut : UpdateType) (req r0 r : Req)
    (hupd : propagateUpdateEventCore update req =
      .ok { request := r0, propagate_result := .unhandled })
    (hmw : runOuterMiddlewares (observers ut).outer_middlewares req = .ok (.proceed r)) :
    (∀ oresp, (observers ut).trigger r = .ok oresp →
      oresp.propagate_result = .rejected →
      RouterService.propagate_event (.mk observers update st sd subs) ut req =
        .ok { request := r, propagate_result := .unhandled }) ∧
    (∀ oresp pre c post cresp, (observers ut).trigger r = .ok oresp →
      oresp.propagate_result = .unhandled →
      subs = pre ++ c :: post →
      (∀ p ∈ pre, ∃ rp, RouterService.propagate_event p ut r =
        .ok { request := rp, propagate_result := .unhandled }) →
      RouterService.propagate_event c ut r = .ok cresp →
      cresp.propagate_result = .rejected →
      RouterService.propagate_event (.mk observers update st sd subs) ut req
        = .ok cresp) := by
  have hkind : RouterService.propagate_event (.mk observers update st sd subs) ut req =
      propagateKindStage (observers ut) subs ut req := by
    simp only [RouterService.propagate_event, hupd]
  constructor
  · intro oresp htrig hrej
    rw [hkind]
    simp only [propagateKindStage, hmw, htrig, hrej]
  · intro oresp pre c post cresp htrig hunh hsplit hpre hc hcrej
    rw [hkind]
    simp only [propagateKindStage, hmw, htrig, hunh]
    rw [hsplit, propagateSubRouters_skip_unhandled ut r pre (c :: post) hpre]
    simp only [propagateSubRouters, hc, hcrej]

/-- Witness for C1: `parentA`'s own observer rejects request `7`, yielding
`Unhandled`; `parentB`'s second child rejects it (after an
unhandled-returning first child), and `parentB` returns that `Rejected`
response verbatim. -/
theorem propagate_event_rejection_asymmetry_witness :
    RouterService.propagate_event parentA .message 7 =
      .ok { request := 7, propagate_result := .unhandled } ∧
    RouterService.propagate_event parentB .message 7 =
      .ok { request := 7, propagate_result := .rejected } := by
  constructor
  · exact (propagate_event_rejection_asymmetry (fun _ => rejObs) noObs (sOk 30) (sOk 31)
      [] .message 7 7 7 rfl rfl).1 { request := 7, propagate_result := .rejected } rfl rfl
  · refine (propagate_event_rejection_asymmetry (fun _ => noObs) noObs (sOk 36) (sOk 37)
      [unhChild, cancelChild] .message 7 7 7 rfl rfl).2
      { request := 7, propagate_result := .unhandled } [unhChild] cancelChild []
      { request := 7, propagate_result := .rejected } rfl rfl rfl ?_ ?_ rfl
    · intro p hp
      rcases List.mem_singleton.mp hp with rfl
      exact ⟨7, by simp [unhChild, noObs, RouterService.propagate_event, propagateKindStage,
        propagateSubRouters, propagateUpdateEventCore, runOuterMiddlewares]⟩
    · simp [cancelChild, cancelObs, noObs, RouterService.propagate_event, propagateKindStage,
        propagateSubRouters, propagateUpdateEventCore, runOuterMiddlewares]

/-- C5: `propagate_event` runs the kind-agnostic update stage of this router
first; a `Handled` or `Rejected` result of `propagate_update_event` is
returned immediately, and the outcome is then independent of the
kind-specific observers, of the requested update kind, and of the child
routers — none of them is consulted. -/
theorem propagate_update_event_short_circuit {Req R E : Type}
    (observers observers2 : UpdateType → TelegramObserverService Req R E)
    (update : TelegramObserverService Req R E)
    (st sd st2 sd2 : SimpleObserverService E)
    (subs subs2 : List (RouterService Req R E))
    (ut ut2 : UpdateType) (req : Req) (resp : Response Req R)
    (hupd : propagateUpdateEventCore update req = .ok resp)
    (hnu : resp.propagate_result ≠ .unhandled) :
    RouterService.propagate_event (.mk observers update st sd subs) ut req = .ok resp ∧
    RouterService.propagate_event (.mk observers update st sd subs) ut req =
      RouterService.propagate_event (.mk observers2 update st2 sd2 subs2) ut2 req ∧
    RouterService.propagate_update_event (.mk observers update st sd subs) req =
      propagateUpdateEventCore update req := by
  obtain ⟨rq, pr⟩ := resp
  have key : ∀ (obs3 : UpdateType → TelegramObserverService Req R E) st3 sd3 subs3 ut3,
      RouterService.propagate_event (.mk obs3 update st3 sd3 subs3) ut3 req =
        .ok { request := rq, propagate_result := pr } := by
    intro obs3 st3 sd3 subs3 ut3
    cases pr with
    | unhandled => exact absurd rfl hnu
    | handled hr => simp only [RouterService.propagate_event, hupd]
    | rejected => simp only [RouterService.propagate_event, hupd]
  exact ⟨key observers st sd subs ut,
    (key observers st sd subs ut).trans (key observers2 st2 sd2 subs2 ut2).symm, rfl⟩

/-- Witness for C5: `parentC`'s update observer handles request `7`, so
propagation returns that result and agrees with a router differing in kind
observers, lifecycle observers, children and update kind. -/
theorem propagate_update_event_short_circuit_witness :
    RouterService.propagate_event parentC .message 7 =
      .ok { request := 7, propagate_result := .handled 42 } ∧
    RouterService.propagate_event parentC .message 7 =
      RouterService.propagate_event
        (.mk (fun _ => rejObs) handledObs (sOk 50) (sOk 51) [cancelChild]) .poll 7 := by
  have h := propagate_update_event_short_circuit (fun _ => noObs) (fun _ => rejObs)
    handledObs (sOk 38) (sOk 39) (sOk 50) (sOk 51) [unhChild] [cancelChild] .message .poll
    7 { request := 7, propagate_result := .handled 42 } rfl (by decide)
  exact ⟨h.1, h.2.1⟩

/-- C6: outer middlewares run in registration order and thread the request as
the claim states — after `Finish` the middleware's possibly-modified request
replaces the current one, after `Skip` the current request is kept and the
next middleware runs, and the first `Cancel` ends the run with the current
request, with all later middlewares irrelevant; at the router level, a
cancelled run of the kind-specific observer's outer middlewares makes
`propagate_event` return `Rejected`, whatever that observer's trigger and
whatever the sub-routers — the observer is never invoked. -/
theorem outer_middleware_pipeline_semantics {Req R E : Type} (req : Req) :
    (∀ (pre post : List (Req → Except E (Req × EventReturn))) m (r r2 : Req),
      runOuterMiddlewares pre req = .ok (.proceed r) → m r = .ok (r2, .finish) →
      runOuterMiddlewares (pre ++ m :: post) req = runOuterMiddlewares post r2) ∧
    (∀ (pre post : List (Req → Except E (Req × EventReturn))) m (r r2 : Req),
      runOuterMiddlewares pre req = .ok (.proceed r) → m r = .ok (r2, .skip) →
      runOuterMiddlewares (pre ++ m :: post) req = runOuterMiddlewares post r) ∧
    (∀ (pre post : List (Req → Except E (Req × EventReturn))) m (r r2 : Req),
      runOuterMiddlewares pre req = .ok (.proceed r) → m r = .ok (r2, .cancel) →
      runOuterMiddlewares (pre ++ m :: post) req = .ok (.cancelled r)) ∧
    (∀ (observers : UpdateType → TelegramObserverService Req R E) update st sd subs ut
        (r0 r : Req),
      propagateUpdateEventCore update req =
        .ok { request := r0, propagate_result := .unhandled } →
      runOuterMiddlewares (observers ut).outer_middlewares req = .ok (.cancelled r) →
      RouterService.propagate_event (.mk observers update st sd subs) ut req =
        .ok { request := r, propagate_result := .rejected } ∧
      ∀ (trig : Req → Except E (Response Req R)) (subs2 : List (RouterService Req R E)) ut2,
        propagateKindStage
          { outer_middlewares := (observers ut).outer_middlewares, trigger := trig }
          subs2 ut2 req = .ok { request := r, propagate_result := .rejected }) := by
  refine ⟨?_, ?_, ?_, ?_⟩
  · intro pre post m r r2 hpre hm
    rw [runOuterMiddlewares_append, hpre]
    simp only [runOuterMiddlewares, hm]
  · intro pre post m r r2 hpre hm
    rw [runOuterMiddlewares_append, hpre]
    simp only [runOuterMiddlewares, hm]
  · intro pre post m r r2 hpre hm
    rw [runOuterMiddlewares_append, hpre]
    simp only [runOuterMiddlewares, hm]
  · intro observers update st sd subs ut r0 r hupd hcancel
    have hkind : RouterService.propagate_event (.mk observers update st sd subs) ut req =
        propagateKindStage (observers ut) subs ut req := by
      simp only [RouterService.propagate_event, hupd]
    constructor
    · rw [hkind]
      simp only [propagateKindStage, hcancel]
    · intro trig subs2 ut2
      simp only [propagateKindStage, hcancel]

/-- Witness for C6: a finish-skip-cancel pipeline on request `7` threads
`7 ↦ 8` through the finish, keeps `8` across the skip, and cancels with `8`,
never reaching the final middleware; and `parentD`, whose kind observer's
outer middleware cancels, rejects request `7`. -/
theorem outer_middleware_pipeline_semantics_witness :
    runOuterMiddlewares [mwAdd, mwSkip, mwCancel, mwAdd] (7 : Nat) = .ok (.cancelled 8) ∧
    RouterService.propagate_event parentD .message 7 =
      .ok { request := 7, propagate_result := .rejected } := by
  constructor
  · exact (outer_middleware_pipeline_semantics (R := Nat) (E := Nat) 7).2.2.1
      [mwAdd, mwSkip] [mwAdd] mwCancel 8 8 rfl rfl
  · exact ((outer_middleware_pipeline_semantics (R := Nat) (E := Nat) 7).2.2.2
      (fun _ => cancelObs) noObs (sOk 40) (sOk 41) [unhChild] .message 7 7 rfl rfl).1

/-- C10: a `Rejected` result of the kind-agnostic update observer's trigger
is converted by `propagate_update_event` into `Unhandled`, and propagation
then continues into the kind-specific stage of the router; conversely, the
only way `propagate_update_event` returns `Rejected` is a cancelled run of
the update observer's outer middlewares. -/
theorem propagate_update_event_rejected_conversion {Req R E : Type}
    (update : TelegramObserverService Req R E) (req : Req) :
    (∀ (r : Req) oresp,
      runOuterMiddlewares update.outer_middlewares req = .ok (.proceed r) →
      update.trigger r = .ok oresp → oresp.propagate_result = .rejected →
      propagateUpdateEventCore update req =
        .ok { request := r, propagate_result := .unhandled } ∧
      ∀ (observers : UpdateType → TelegramObserverService Req R E) st sd subs ut,
        RouterService.propagate_event (.mk observers update st sd subs) ut req =
          propagateKindStage (observers ut) subs ut req) ∧
    (∀ resp, propagateUpdateEventCore update req = .ok resp →
      resp.propagate_result = .rejected →
      runOuterMiddlewares update.outer_middlewares req = .ok (.cancelled resp.request)) := by
  constructor
  · intro r oresp hmw htrig hrej
    have hcore : propagateUpdateEventCore update req =
        .ok { request := r, propagate_result := .unhandled } := by
      simp only [propagateUpdateEventCore, hmw, htrig, hrej]
    refine ⟨hcore, ?_⟩
    intro observers st sd subs ut
    simp only [RouterService.propagate_event, hcore]
  · intro resp hcore hrej
    cases hmw : runOuterMiddlewares update.outer_middlewares req with
    | error e =>
      have hval : propagateUpdateEventCore update req = .error e := by
        simp only [propagateUpdateEventCore, hmw]
      rw [hval] at hcore
      simp at hcore
    | ok outc =>
      cases outc with
      | cancelled r =>
        have hval : propagateUpdateEventCore update req =
            .ok { request := r, propagate_result := .rejected } := by
          simp only [propagateUpdateEventCore, hmw]
        rw [hval] at hcore
        have hr : Response.mk r (PropagateEventResult.rejected (R := R)) = resp := by
          injection hcore
        subst hr
        rfl
      | proceed r =>
        cases htrig : update.trigger r with
        | error e =>
          have hval : propagateUpdateEventCore update req = .error e := by
            simp only [propagateUpdateEventCore, hmw, htrig]
          rw [hval] at hcore
          simp at hcore
        | ok oresp =>
          cases hpr : oresp.propagate_result with
          | unhandled =>
            have hval : propagateUpdateEventCore update req =
                .ok { request := r, propagate_result := PropagateEventResult.unhandled } := by
              simp only [propagateUpdateEventCore, hmw, htrig, hpr]
            rw [hval] at hcore
            have hr : Response.mk r (PropagateEventResult.unhandled (R := R)) = resp := by
              injection hcore
            subst hr
            simp at hrej
          | handled hres =>
            have hval : propagateUpdateEventCore update req =
                .ok { request := r, propagate_result := .handled hres } := by
              simp only [propagateUpdateEventCore, hmw, htrig, hpr]
            rw [hval] at hcore
            have hr : Response.mk r (PropagateEventResult.handled hres) = resp := by
              injection hcore
            subst hr
            simp at hrej
          | rejected =>
            have hval : propagateUpdateEventCore update req =
                .ok { request := r, propagate_result := PropagateEventResult.unhandled } := by
              simp only [propagateUpdateEventCore, hmw, htrig, hpr]
            rw [hval] at hcore
            have hr : Response.mk r (PropagateEventResult.unhandled (R := R)) = resp := by
              injection hcore
            subst hr
            simp at hrej

/-- Witness for C10: the update observer `rejObs` rejects request `7`
in its trigger, yet `propagate_update_event` reports `Unhandled` and
propagation proceeds to the kind stage; and with `cancelObs` as update
observer, the `Rejected` result traces back to its cancelling outer
middleware. -/
theorem propagate_update_event_rejected_conversion_witness :
    propagateUpdateEventCore rejObs 7 =
      .ok { request := 7, propagate_result := .unhandled } ∧
    RouterService.propagate_event
        (.mk (fun _ => handledObs) rejObs (sOk 60) (sOk 61) []) .message 7 =
      propagateKindStage handledObs [] .message 7 ∧
    runOuterMiddlewares cancelObs.outer_middlewares 7 = .ok (.cancelled 7) := by
  have ha := (propagate_update_event_rejected_conversion rejObs 7).1 7
    { request := 7, propagate_result := .rejected } rfl rfl rfl
  have hb := (propagate_update_event_rejected_conversion cancelObs 7).2
    { request := 7, propagate_result := .rejected } rfl rfl
  exact ⟨ha.1, ha.2 (fun _ => handledObs) (sOk 60) (sOk 61) [] .message, hb⟩

end Telers
